import Mathlib

/-!
Verification of `src/backbone.bootstrap-modal.js` (a Bootstrap Modal wrapper
for Backbone views).

The file shallowly embeds the module: option records mirror the merged
defaults of `initialize` (lines 106-118), `template` mirrors the default
underscore template (lines 25-45), `render` mirrors lines 125-159,
`openModal`/`closeModal`/`preventClose` mirror `open`/`close`/`preventClose`
(lines 166-272), and the DOM event handlers of the `events` map (lines 55-87)
and the one-shot handlers registered by `open` become explicit state
transformers that also return a trace of observable actions (widget commands,
event emissions, element removal).  The process-wide `Modal.count` static
(line 277) lives in the `World` record together with the single modal under
study; the Dialog Widget collaborator (Bootstrap) is represented by the
configuration handed to it, by its `shown`/`hidden` completion signals
(delivered by `deliverShown`/`deliverHidden`), and by the computed z-index
string of a freshly inserted backdrop (`World.backdropBaseZ`, `"1040"` in the
Bootstrap stylesheet).
-/

/-- JavaScript values, as far as the modal's option fields need them. -/
inductive JSVal where
  | undefined
  | null
  | bool (b : Bool)
  | num (n : Int)
  | str (s : String)
deriving DecidableEq

/-- JavaScript truthiness of a `JSVal`. -/
def JSVal.truthy : JSVal → Bool
  | .undefined => false
  | .null => false
  | .bool b => b
  | .num n => n != 0
  | .str s => s != ""

/-- Errors the embedded code can raise. -/
inductive JSErr where
  | typeError
deriving DecidableEq

/-- The `options.content` value: absent (`undefined`), a plain string, or a
view-like object.  A view always has `$el` and `render`; `viewHasTrigger`
records whether it also exposes a `trigger` method (duck-typing checked by
the source at lines 61, 70, 79, 184, 202, 212, 256). -/
inductive Content where
  | absent
  | text (s : String)
  | view (viewHasTrigger : Bool)
deriving DecidableEq

/-- The guard `this.options.content && this.options.content.trigger` from the
source: absent content is falsy, a string has no `trigger` method, a view
forwards only when it has one. -/
def Content.canTrigger : Content → Bool
  | .absent => false
  | .text _ => false
  | .view t => t

/-- Reading `content.$el` (line 151).  On `undefined` content the property
access throws a TypeError; on a string it evaluates to `undefined` (falsy,
strings have no `$el`); a view-like object has it. -/
def Content.dollarEl : Content → Except JSErr Bool
  | .absent => .error .typeError
  | .text _ => .ok false
  | .view _ => .ok true

/-- The `options.animate` value: `false` (default), `true` (`=== true`, adds
the fade class), or a caller-supplied hook function.  The hook is modelled as
respecting its documented contract (on close it calls the provided
continuation, which performs the widget hide). -/
inductive AnimateOpt where
  | off
  | fade
  | hook
deriving DecidableEq

/-- The option record after the `_.extend` merge in `initialize`
(lines 107-117).  Field defaults are exactly the defaults object of the
source; `content`, `backdrop` and `width` have no default there, i.e. are
`undefined` unless supplied. -/
structure Options where
  title : JSVal := .null
  okText : JSVal := .str "OK"
  focusOk : Bool := true
  okCloses : Bool := true
  cancelText : JSVal := .str "Cancel"
  allowCancel : Bool := true
  escape : Bool := true
  animate : AnimateOpt := .off
  content : Content := .absent
  backdrop : JSVal := .undefined
  width : Option Int := none
deriving DecidableEq

/-- Caller-supplied options before the merge: every field optional. -/
structure OptionsIn where
  title : Option JSVal := none
  okText : Option JSVal := none
  focusOk : Option Bool := none
  okCloses : Option Bool := none
  cancelText : Option JSVal := none
  allowCancel : Option Bool := none
  escape : Option Bool := none
  animate : Option AnimateOpt := none
  content : Option Content := none
  backdrop : Option JSVal := none
  width : Option Int := none
deriving DecidableEq

/-- The constructor's option merge (source `initialize`, lines 106-118):
`this.options = _.extend({title: null, okText: 'OK', focusOk: true,
okCloses: true, cancelText: 'Cancel', allowCancel: true, escape: true,
animate: false, template: template}, options)`. -/
def initOptions (o : OptionsIn) : Options where
  title := o.title.getD .null
  okText := o.okText.getD (.str "OK")
  focusOk := o.focusOk.getD true
  okCloses := o.okCloses.getD true
  cancelText := o.cancelText.getD (.str "Cancel")
  allowCancel := o.allowCancel.getD true
  escape := o.escape.getD true
  animate := o.animate.getD .off
  content := o.content.getD .absent
  backdrop := o.backdrop.getD .undefined
  width := o.width

/-- Which regions of the default template's markup (lines 25-45) are present
in the rendered output. -/
structure TemplateOutput where
  header : Bool
  closeIcon : Bool
  footer : Bool
  cancelButton : Bool
  okButton : Bool
deriving DecidableEq

/-- The default underscore template (lines 25-45): header `<% if (title) %>`,
close icon `<% if (allowCancel) %>` inside the header, footer
`<% if (okText !== false || cancelText !== false) %>`, cancel button
`<% if (allowCancel) %><% if (cancelText) %>` inside the footer, OK button
unconditionally inside the footer.  The body div is always rendered. -/
def template (o : Options) : TemplateOutput :=
  let header := o.title.truthy
  let footer := decide (o.okText ≠ .bool false ∨ o.cancelText ≠ .bool false)
  { header := header
    closeIcon := header && o.allowCancel
    footer := footer
    cancelButton := footer && (o.allowCancel && o.cancelText.truthy)
    okButton := footer }

/-- What `render` (lines 125-159) did to the element. -/
structure RenderResult where
  markup : TemplateOutput
  widthStyled : Option Int
  fadeClass : Bool
  animateOpenHookCalled : Bool
  contentViewInserted : Bool
deriving DecidableEq

/-- Source `render` (lines 125-159): builds the markup from the template,
applies width styling when `options.width` is truthy, adds the fade class
when `animate === true` or calls the animate hook with phase `"open"` when it
is a function, then reads `content.$el` (line 151) - a TypeError when content
is `undefined` - and, when content is a view, renders it and inserts its
element into the body. -/
def render (o : Options) : Except JSErr RenderResult :=
  match o.content.dollarEl with
  | .error e => .error e
  | .ok hasEl =>
      .ok { markup := template o
            widthStyled := match o.width with
              | some w => if w ≠ 0 then some w else none
              | none => none
            fadeClass := o.animate = .fade
            animateOpenHookCalled := o.animate = .hook
            contentViewInserted := hasEl }

/-- The configuration object handed to the Dialog Widget by
`$el.modal({keyboard: ..., backdrop: ...})` (lines 173-176). -/
structure WidgetConfig where
  keyboard : Bool
  backdrop : JSVal
deriving DecidableEq

/-- The `backdrop` entry of the widget configuration (line 175):
`(backdrop || backdrop === undefined) ? (allowCancel ? true : 'static')
: backdrop`. -/
def backdropOption (o : Options) : JSVal :=
  if o.backdrop.truthy || o.backdrop = .undefined then
    (if o.allowCancel then .bool true else .str "static")
  else o.backdrop

/-- The full widget configuration of lines 173-176: `keyboard` is
`this.options.allowCancel`. -/
def widgetConfigOf (o : Options) : WidgetConfig :=
  { keyboard := o.allowCancel, backdrop := backdropOption o }

/-- Per-instance state of a Modal: its merged options, the `isRendered` flag,
the `_preventClose` flag, whether its element is attached to the document,
which one-shot handlers are currently armed (`$el.one('shown')`,
`$(document).one('keyup.dismiss.modal')`, backdrop `one('click')`,
`$el.one('hidden')`), and how many `cancel`-to-`close` listeners `open` has
wired via `this.on('cancel', ...)` (line 218). -/
structure ModalState where
  options : Options
  isRendered : Bool := false
  rendered : Option RenderResult := none
  preventCloseFlag : Bool := false
  inDocument : Bool := false
  shownArmed : Bool := false
  escapeArmed : Bool := false
  backdropArmed : Bool := false
  hiddenArmed : Bool := false
  cancelWired : Nat := 0
  widgetConfig : Option WidgetConfig := none
deriving DecidableEq

/-- The world: the modal under study, the process-wide `Modal.count` static
(line 277, a JavaScript number, hence `Int`), and the computed `z-index`
string of a freshly inserted widget backdrop (`"1040"` in the Bootstrap
stylesheet; jQuery's `css` getter returns it as a string). -/
structure World where
  modal : ModalState
  count : Int
  backdropBaseZ : String
deriving DecidableEq

/-- Observable actions of the embedded code, in execution order. -/
inductive Act where
  | widgetShow (cfg : WidgetConfig)
  | cssZIndex (backdropValue : String) (elementValue : String)
  | widgetHide
  | hideComplete
  | removeElement
  | emitModal (e : String)
  | forwardContent (e : String) (withModalArg : Bool)
  | focusOkButton
  | animateHook (phase : String)
deriving DecidableEq

/-- Decimal digits of a natural number, least significant first, with
structural fuel. -/
def decDigitsF : Nat → Nat → List Nat
  | 0, _ => []
  | f + 1, n => if n = 0 then [] else n % 10 :: decDigitsF f (n / 10)

/-- Decimal digits of a natural number, least significant first. -/
def decDigits (n : Nat) : List Nat := decDigitsF n n

/-- The decimal string JavaScript's number-to-string conversion produces for
a non-negative integer. -/
def natDecimalRepr (n : Nat) : String :=
  if n = 0 then "0" else String.mk (((decDigits n).map Nat.digitChar).reverse)

/-- JavaScript number-to-string conversion for an integer. -/
def jsIntToString (n : Int) : String :=
  if n < 0 then "-" ++ natDecimalRepr n.natAbs else natDecimalRepr n.toNat

/-- JavaScript `string + number`: string concatenation with the number's
string conversion (the coercion performed at lines 197-198). -/
def jsAddStringNum (s : String) (n : Int) : String := s ++ jsIntToString n

/-- Numeric value of a little-endian decimal digit list. -/
def ofDecDigits : List Nat → Nat
  | [] => 0
  | d :: ds => d + 10 * ofDecDigits ds

/-- Value of a decimal character. -/
def decDigitVal (c : Char) : Nat := c.toNat - 48

/-- The numeric value the CSS engine assigns to a decimal `z-index` string
handed to the `css` setter. -/
def parseDecimal (s : String) : Nat :=
  ofDecDigits ((s.data.map decDigitVal).reverse)

/-- Source `open` (lines 166-230), invoked without the optional `ok`
callback: renders if not yet rendered (which can throw, see `render`), shows
the element through the Dialog Widget with `keyboard`/`backdrop` derived from
the options (the widget appends the element to the document and inserts a
backdrop), arms the one-shot `shown` handler, applies the z-index adjustment
`$backdrop.css('z-index', backdropIndex + numModals)` and the same to the
element - a JavaScript string-number concatenation, since the `css` getter
returned a string - and, when `allowCancel`, arms the one-shot Escape-keyup
and backdrop-click handlers; wires `cancel` to `close` (line 218) and
increments `Modal.count` (line 222). -/
def openModal (w : World) : Except JSErr (World × List Act) :=
  let renderedState : Except JSErr ModalState :=
    if w.modal.isRendered then .ok w.modal else
      match render w.modal.options with
      | .error e => .error e
      | .ok r => .ok { w.modal with isRendered := true, rendered := some r }
  match renderedState with
  | .error e => .error e
  | .ok m =>
      let cfg := widgetConfigOf m.options
      let z := jsAddStringNum w.backdropBaseZ w.count
      .ok ({ modal := { m with
                inDocument := true
                widgetConfig := some cfg
                shownArmed := true
                escapeArmed := m.options.allowCancel
                backdropArmed := m.options.allowCancel
                cancelWired := m.cancelWired + 1 }
             count := w.count + 1
             backdropBaseZ := w.backdropBaseZ },
           [Act.widgetShow cfg, Act.cssZIndex z z])

/-- Source `close` (lines 235-264): when `_preventClose` is set, clears it
and returns (nothing else happens); otherwise commands the widget hide
(through the animate hook with phase `"close"` when animate is a function),
arms the one-shot `hidden` handler (line 253), and decrements `Modal.count`
immediately (line 263, not gated on the `hidden` signal). -/
def closeModal (w : World) : World × List Act :=
  if w.modal.preventCloseFlag then
    ({ w with modal := { w.modal with preventCloseFlag := false } }, [])
  else
    ({ w with
        modal := { w.modal with hiddenArmed := true }
        count := w.count - 1 },
     if w.modal.options.animate = .hook then
       [Act.animateHook "close", Act.widgetHide]
     else [Act.widgetHide])

/-- The Dialog Widget completing its hide: fires the one-shot `hidden`
handler registered by `close` (lines 253-261), which removes the element from
the document (`self.remove()`, line 254), forwards `hidden` to a
trigger-capable content view with the modal as argument (lines 256-258), and
then emits `hidden` from the Modal (line 260). -/
def deliverHidden (w : World) : World × List Act :=
  if w.modal.hiddenArmed then
    ({ w with modal := { w.modal with hiddenArmed := false, inDocument := false } },
     [Act.hideComplete, Act.removeElement] ++
       (if w.modal.options.content.canTrigger then
          [Act.forwardContent "hidden" true] else []) ++
       [Act.emitModal "hidden"])
  else (w, [])

/-- A `close` invocation together with the widget's subsequent hide
completion. -/
def closeAndComplete (w : World) : World × List Act :=
  let p := closeModal w
  let q := deliverHidden p.1
  (q.1, p.2 ++ q.2)

/-- Source `preventClose` (lines 270-272): sets `_preventClose`. -/
def preventClose (w : World) : World :=
  { w with modal := { w.modal with preventCloseFlag := true } }

/-- Running the `close()` calls of the listeners wired by
`this.on('cancel', function () { self.close(); })` - one call per wiring. -/
def runCloses : Nat → World → World × List Act
  | 0, w => (w, [])
  | n + 1, w =>
      let p := closeModal w
      let q := runCloses n p.1
      (q.1, p.2 ++ q.2)

/-- Backbone `this.trigger('cancel')`: emits the event and synchronously runs
the wired `cancel`-to-`close` listeners. -/
def triggerCancel (w : World) : World × List Act :=
  let p := runCloses w.modal.cancelWired w
  (p.1, Act.emitModal "cancel" :: p.2)

/-- The `'click .cancel'` handler of the `events` map (lines 65-73):
`this.trigger('cancel')` then the forward to a trigger-capable content view;
the handler itself never calls `close`. -/
def clickCancel (w : World) : World × List Act :=
  let p := triggerCancel w
  (p.1, p.2 ++
    (if p.1.modal.options.content.canTrigger then
      [Act.forwardContent "cancel" true] else []))

/-- The `'click .close'` handler (lines 56-64), body identical to the cancel
button's. -/
def clickCloseIcon (w : World) : World × List Act :=
  let p := triggerCancel w
  (p.1, p.2 ++
    (if p.1.modal.options.content.canTrigger then
      [Act.forwardContent "cancel" true] else []))

/-- The `'click .ok'` handler (lines 74-86): `this.trigger('ok')`, the
forward to a trigger-capable content view, then `this.close()` when
`okCloses`. -/
def clickOk (w : World) : World × List Act :=
  let pre := Act.emitModal "ok" ::
    (if w.modal.options.content.canTrigger then
      [Act.forwardContent "ok" true] else [])
  if w.modal.options.okCloses then
    let p := closeModal w
    (p.1, pre ++ p.2)
  else (w, pre)

/-- Delivery of a `keyup` on the document: the one-shot
`keyup.dismiss.modal` handler (lines 209-215) is consumed by any key; for
key code 27 it runs `self.trigger('cancel')` and then - the content-view
forward of the source, line 213 - `self.options.content.trigger('shown',
self)` when the content is trigger-capable. -/
def deliverKeyup (which : Int) (w : World) : World × List Act :=
  if w.modal.escapeArmed then
    let w1 : World := { w with modal := { w.modal with escapeArmed := false } }
    let p := if which = 27 then triggerCancel w1 else (w1, [])
    (p.1, p.2 ++
      (if p.1.modal.options.content.canTrigger && which == 27 then
        [Act.forwardContent "shown" true] else []))
  else (w, [])

/-- Delivery of a click on the backdrop: the one-shot handler of lines
201-207 forwards `cancel` to a trigger-capable content view first, then
runs `self.trigger('cancel')`. -/
def deliverBackdropClick (w : World) : World × List Act :=
  if w.modal.backdropArmed then
    let w1 : World := { w with modal := { w.modal with backdropArmed := false } }
    let fwd := if w1.modal.options.content.canTrigger then
      [Act.forwardContent "cancel" true] else []
    let p := triggerCancel w1
    (p.1, fwd ++ p.2)
  else (w, [])

/-- The Dialog Widget completing its show: fires the one-shot `shown` handler
registered by `open` (lines 179-189): focuses the OK button when `focusOk`,
forwards `shown` to a trigger-capable content view, then emits `shown`. -/
def deliverShown (w : World) : World × List Act :=
  if w.modal.shownArmed then
    ({ w with modal := { w.modal with shownArmed := false } },
     (if w.modal.options.focusOk then [Act.focusOkButton] else []) ++
       (if w.modal.options.content.canTrigger then
         [Act.forwardContent "shown" true] else []) ++
       [Act.emitModal "shown"])
  else (w, [])

/-- Opening `n` fresh modals sequentially, all with options `o`, against the
shared `Modal.count` starting at `c`: returns the final count and, per open,
the count it observed and its action trace. -/
def openSeqCount (o : Options) (base : String) : Nat → Int → Except JSErr (Int × List (Int × List Act))
  | 0, c => .ok (c, [])
  | n + 1, c =>
      match openModal { modal := { options := o }, count := c, backdropBaseZ := base } with
      | .error e => .error e
      | .ok (w, acts) =>
          match openSeqCount o base n w.count with
          | .error e => .error e
          | .ok (cf, rest) => .ok (cf, (c, acts) :: rest)

/-- The z-index string `open` applies to the k-th modal's element and
backdrop when the open-count is the natural number `k`: the JavaScript
string-number coercion concatenates. -/
def zStr (base : String) (k : Nat) : String := base ++ natDecimalRepr k

/-- Numeric value the CSS engine gives the applied z-index string. -/
def zVal (base : String) (k : Nat) : Nat := parseDecimal (zStr base k)

theorem decDigitsF_zero (f : Nat) : decDigitsF f 0 = [] := by
  cases f <;> simp [decDigitsF]

theorem decDigitsF_congr : ∀ f g n : Nat, n ≤ f → n ≤ g → decDigitsF f n = decDigitsF g n := by
  intro f
  induction f with
  | zero =>
      intro g n hf _
      interval_cases n
      simp [decDigitsF_zero]
  | succ f ih =>
      intro g n hf hg
      rcases Nat.eq_zero_or_pos n with hn | hn
      · subst hn; simp [decDigitsF_zero]
      · obtain ⟨g1, rfl⟩ : ∃ g1, g = g1 + 1 :=
          ⟨g - 1, by omega⟩
        have hlt : n / 10 < n := Nat.div_lt_self hn (by omega)
        simp only [decDigitsF, if_neg (Nat.pos_iff_ne_zero.mp hn)]
        exact congrArg _ (ih g1 (n / 10) (by omega) (by omega))

theorem decDigits_eq (n : Nat) :
    decDigits n = if n = 0 then [] else n % 10 :: decDigits (n / 10) := by
  rcases Nat.eq_zero_or_pos n with hn | hn
  · subst hn; simp [decDigits, decDigitsF]
  · obtain ⟨m, rfl⟩ : ∃ m, n = m + 1 := ⟨n - 1, by omega⟩
    simp only [decDigits, decDigitsF, if_neg (Nat.pos_iff_ne_zero.mp hn)]
    have hdiv : (m + 1) / 10 ≤ m := by
      have := Nat.div_lt_self hn (show 1 < 10 by omega)
      omega
    exact congrArg _ (decDigitsF_congr m ((m + 1) / 10) ((m + 1) / 10) hdiv le_rfl)

theorem ofDecDigits_decDigits (n : Nat) : ofDecDigits (decDigits n) = n := by
  induction n using Nat.strong_induction_on with
  | _ n ih =>
    rcases Nat.eq_zero_or_pos n with hn | hn
    · subst hn; simp [decDigits_eq, ofDecDigits]
    · rw [decDigits_eq, if_neg (Nat.pos_iff_ne_zero.mp hn)]
      have hlt : n / 10 < n := Nat.div_lt_self hn (by omega)
      simp only [ofDecDigits, ih (n / 10) hlt]
      omega

theorem decDigits_mem_lt (n : Nat) : ∀ d ∈ decDigits n, d < 10 := by
  induction n using Nat.strong_induction_on with
  | _ n ih =>
    intro d hd
    rcases Nat.eq_zero_or_pos n with hn | hn
    · subst hn; rw [decDigits_eq] at hd; simp at hd
    · rw [decDigits_eq, if_neg (Nat.pos_iff_ne_zero.mp hn)] at hd
      rcases List.mem_cons.mp hd with h | h
      · subst h; exact Nat.mod_lt n (by omega)
      · exact ih (n / 10) (Nat.div_lt_self hn (by omega)) d h

theorem decDigits_length_mono : ∀ m n : Nat, m ≤ n → (decDigits m).length ≤ (decDigits n).length := by
  intro m n
  induction n using Nat.strong_induction_on generalizing m with
  | _ n ih =>
    intro hmn
    rcases Nat.eq_zero_or_pos m with hm | hm
    · subst hm; rw [decDigits_eq]; simp
    · have hn : 0 < n := lt_of_lt_of_le hm hmn
      rw [decDigits_eq, if_neg (Nat.pos_iff_ne_zero.mp hm),
        decDigits_eq n, if_neg (Nat.pos_iff_ne_zero.mp hn)]
      simp only [List.length_cons, Nat.add_le_add_iff_right]
      exact ih (n / 10) (Nat.div_lt_self hn (by omega)) (m / 10) (Nat.div_le_div_right hmn)

theorem ofDecDigits_append (l1 l2 : List Nat) :
    ofDecDigits (l1 ++ l2) = ofDecDigits l1 + 10 ^ l1.length * ofDecDigits l2 := by
  induction l1 with
  | nil => simp [ofDecDigits]
  | cons d ds ih => simp [ofDecDigits, ih]; ring

theorem parseDecimal_append (s t : String) :
    parseDecimal (s ++ t) = parseDecimal s * 10 ^ t.length + parseDecimal t := by
  show ofDecDigits (((s.data ++ t.data).map decDigitVal).reverse) = _
  rw [List.map_append, List.reverse_append, ofDecDigits_append]
  simp only [parseDecimal, List.length_reverse, List.length_map]
  have : t.length = t.data.length := rfl
  rw [this]
  ring

theorem decDigitVal_digitChar (d : Nat) (h : d < 10) :
    decDigitVal (Nat.digitChar d) = d := by
  interval_cases d <;> decide

theorem parseDecimal_natDecimalRepr (n : Nat) :
    parseDecimal (natDecimalRepr n) = n := by
  rcases Nat.eq_zero_or_pos n with hn | hn
  · subst hn; decide
  · rw [natDecimalRepr, if_neg (Nat.pos_iff_ne_zero.mp hn)]
    show ofDecDigits (((((decDigits n).map Nat.digitChar).reverse).map decDigitVal).reverse) = n
    rw [List.map_reverse, List.reverse_reverse, List.map_map]
    have hmap : (decDigits n).map (decDigitVal ∘ Nat.digitChar) = (decDigits n).map id := by
      apply List.map_congr_left
      intro d hd
      exact decDigitVal_digitChar d (decDigits_mem_lt n d hd)
    rw [hmap, List.map_id, ofDecDigits_decDigits]


theorem natDecimalRepr_length (n : Nat) :
    (natDecimalRepr n).length = if n = 0 then 1 else (decDigits n).length := by
  rcases Nat.eq_zero_or_pos n with hn | hn
  · subst hn; rfl
  · rw [natDecimalRepr, if_neg (Nat.pos_iff_ne_zero.mp hn),
      if_neg (Nat.pos_iff_ne_zero.mp hn)]
    show (((decDigits n).map Nat.digitChar).reverse).length = _
    rw [List.length_reverse, List.length_map]

theorem decDigits_length_pos (n : Nat) (hn : 0 < n) : 0 < (decDigits n).length := by
  rw [decDigits_eq, if_neg (Nat.pos_iff_ne_zero.mp hn)]
  simp

theorem natDecimalRepr_length_mono (m n : Nat) (h : m ≤ n) :
    (natDecimalRepr m).length ≤ (natDecimalRepr n).length := by
  rw [natDecimalRepr_length, natDecimalRepr_length]
  rcases Nat.eq_zero_or_pos m with hm | hm
  · subst hm
    rcases Nat.eq_zero_or_pos n with hn | hn
    · simp [hn]
    · rw [if_pos rfl, if_neg (Nat.pos_iff_ne_zero.mp hn)]
      exact decDigits_length_pos n hn
  · have hn : 0 < n := lt_of_lt_of_le hm h
    rw [if_neg (Nat.pos_iff_ne_zero.mp hm), if_neg (Nat.pos_iff_ne_zero.mp hn)]
    exact decDigits_length_mono m n h

theorem zVal_eq (base : String) (k : Nat) :
    zVal base k = parseDecimal base * 10 ^ (natDecimalRepr k).length + k := by
  rw [zVal, zStr, parseDecimal_append, parseDecimal_natDecimalRepr]

theorem zVal_strictMono (base : String) (k : Nat) : zVal base k < zVal base (k + 1) := by
  rw [zVal_eq, zVal_eq]
  have hlen : (natDecimalRepr k).length ≤ (natDecimalRepr (k + 1)).length :=
    natDecimalRepr_length_mono k (k + 1) (by omega)
  have hpow : 10 ^ (natDecimalRepr k).length ≤ 10 ^ (natDecimalRepr (k + 1)).length :=
    Nat.pow_le_pow_right (by omega) hlen
  have := Nat.mul_le_mul_left (parseDecimal base) hpow
  omega

theorem jsIntToString_natCast (k : Nat) : jsIntToString (k : Int) = natDecimalRepr k := by
  rw [jsIntToString, if_neg (by omega)]
  simp

theorem openModal_fresh (o : Options) (h : o.content ≠ Content.absent) (c : Int) (base : String) :
    ∃ m1 : ModalState,
      openModal { modal := { options := o }, count := c, backdropBaseZ := base } =
        .ok ({ modal := m1, count := c + 1, backdropBaseZ := base },
             [Act.widgetShow (widgetConfigOf o),
              Act.cssZIndex (jsAddStringNum base c) (jsAddStringNum base c)]) ∧
      m1.options = o ∧ m1.inDocument = true ∧ m1.preventCloseFlag = false ∧
      m1.cancelWired = 1 ∧ m1.escapeArmed = o.allowCancel ∧
      m1.backdropArmed = o.allowCancel ∧ m1.hiddenArmed = false ∧
      m1.isRendered = true ∧ m1.shownArmed = true ∧
      m1.widgetConfig = some (widgetConfigOf o) := by
  cases hc : o.content with
  | absent => exact absurd hc h
  | text s =>
      simp only [openModal, render, hc, Content.dollarEl]
      exact ⟨_, rfl, rfl, rfl, rfl, rfl, rfl, rfl, rfl, rfl, rfl, rfl⟩
  | view t =>
      simp only [openModal, render, hc, Content.dollarEl]
      exact ⟨_, rfl, rfl, rfl, rfl, rfl, rfl, rfl, rfl, rfl, rfl, rfl⟩

theorem openSeqCount_ok (o : Options) (h : o.content ≠ Content.absent) (base : String) :
    ∀ (n : Nat) (c : Int), ∃ entries,
      openSeqCount o base n c = .ok (c + n, entries) ∧ entries.length = n ∧
      ∀ k, k < n → ∃ acts, entries.get? k = some (c + k, acts) ∧
        Act.cssZIndex (jsAddStringNum base (c + k)) (jsAddStringNum base (c + k)) ∈ acts := by
  intro n
  induction n with
  | zero =>
      intro c
      exact ⟨[], by simp [openSeqCount], rfl, fun k hk => absurd hk (by omega)⟩
  | succ n ih =>
      intro c
      obtain ⟨m1, heq, -⟩ := openModal_fresh o h c base
      obtain ⟨rest, hr, hlen, hidx⟩ := ih (c + 1)
      refine ⟨(c, [Act.widgetShow (widgetConfigOf o),
        Act.cssZIndex (jsAddStringNum base c) (jsAddStringNum base c)]) :: rest, ?_, ?_, ?_⟩
      · simp only [openSeqCount, heq, hr]
        have hcast : c + 1 + (n : Int) = c + ((n : Nat) + 1 : Nat) := by push_cast; ring
        rw [hcast]
      · simp [hlen]
      · intro k hk
        cases k with
        | zero =>
            refine ⟨[Act.widgetShow (widgetConfigOf o),
              Act.cssZIndex (jsAddStringNum base c) (jsAddStringNum base c)], ?_, ?_⟩
            · simp
            · simp
        | succ k =>
            obtain ⟨acts, hget, hmem⟩ := hidx k (by omega)
            refine ⟨acts, ?_, ?_⟩
            · show rest.get? k = _
              rw [hget]
              have : c + 1 + (k : Int) = c + ((k : Nat) + 1 : Nat) := by push_cast; ring
              rw [this]
            · have : c + 1 + (k : Int) = c + ((k : Nat) + 1 : Nat) := by push_cast; ring
              rwa [this] at hmem

/-- A sample merged option set: all defaults plus a plain-string content. -/
def sampleTextOptions : Options := initOptions { content := some (Content.text "hi") }

/-- A sample merged option set: all defaults plus a content view that
exposes `trigger`. -/
def sampleViewOptions : Options := initOptions { content := some (Content.view true) }

/-- A fresh world holding an unopened modal with the given options, with the
open-count at zero and the Bootstrap backdrop z-index. -/
def sampleWorld (o : Options) : World :=
  { modal := { options := o }, count := 0, backdropBaseZ := "1040" }

/-- The world right after `open()` on a fresh modal with string content. -/
def openedSampleWorld : World :=
  match openModal (sampleWorld sampleTextOptions) with
  | .ok p => p.1
  | .error _ => sampleWorld sampleTextOptions

/-- The world right after `open()` on a fresh modal whose content view
exposes `trigger`. -/
def openedViewWorld : World :=
  match openModal (sampleWorld sampleViewOptions) with
  | .ok p => p.1
  | .error _ => sampleWorld sampleViewOptions

/-- C1: for every option set (with content present, so the first render
succeeds), `open()` increments the process-wide open-count by one, and an
immediate `close()` with no preventClose veto decrements it by one - ending
with the count restored to its value before `open()` and the modal's element
removed from the document once the widget's hide completes. -/
theorem C1_open_close_restores (o : Options) (c : Int) (base : String)
    (h : o.content ≠ Content.absent) :
    ∃ w1 acts,
      openModal { modal := { options := o }, count := c, backdropBaseZ := base } =
        .ok (w1, acts) ∧
      w1.count = c + 1 ∧ w1.modal.inDocument = true ∧
      (closeAndComplete w1).1.count = c ∧
      (closeAndComplete w1).1.modal.inDocument = false := by
  obtain ⟨m1, heq, -, hdoc, hpc, -, -, -, -, -, -⟩ := openModal_fresh o h c base
  refine ⟨_, _, heq, rfl, hdoc, ?_, ?_⟩
  · simp [closeAndComplete, closeModal, deliverHidden, hpc]
  · simp [closeAndComplete, closeModal, deliverHidden, hpc]

theorem C1_witness :
    ∃ w1 acts,
      openModal { modal := { options := sampleTextOptions }, count := 0, backdropBaseZ := "1040" } = .ok (w1, acts) ∧
      w1.count = 0 + 1 ∧ w1.modal.inDocument = true ∧
      (closeAndComplete w1).1.count = 0 ∧
      (closeAndComplete w1).1.modal.inDocument = false :=
  C1_open_close_restores sampleTextOptions 0 "1040" (by decide)

/-- C2: after `preventClose()`, the next `close()` clears the flag and is a
no-op - no widget hide is commanded, the element's document attachment and
the open-count are unchanged - and the veto is single-shot: the close after
that proceeds normally (count decremented, hide commanded). -/
theorem C2_preventClose_single_shot (w : World) :
    closeModal (preventClose w) =
      ({ w with modal := { w.modal with preventCloseFlag := false } }, []) ∧
    (closeModal (preventClose w)).1.count = w.count ∧
    (closeModal (preventClose w)).1.modal.inDocument = w.modal.inDocument ∧
    (closeModal (preventClose w)).1.modal.preventCloseFlag = false ∧
    (closeModal (closeModal (preventClose w)).1).1.count = w.count - 1 ∧
    Act.widgetHide ∈ (closeModal (closeModal (preventClose w)).1).2 := by
  refine ⟨?_, ?_, ?_, ?_, ?_, ?_⟩
  · simp [closeModal, preventClose]
  · simp [closeModal, preventClose]
  · simp [closeModal, preventClose]
  · simp [closeModal, preventClose]
  · simp [closeModal, preventClose]
  · by_cases ha : w.modal.options.animate = AnimateOpt.hook <;>
      simp [closeModal, preventClose, ha]

/-- C10: `render` dereferences `options.content` unconditionally (the
`content.$el` read at line 151), so with no content option both `render` and
the first `open()` throw a TypeError instead of rendering an empty body. -/
theorem C10_absent_content_throws (o : Options) (c : Int) (base : String)
    (h : o.content = Content.absent) :
    render o = .error JSErr.typeError ∧
    openModal { modal := { options := o }, count := c, backdropBaseZ := base } =
      .error JSErr.typeError := by
  constructor
  · simp [render, h, Content.dollarEl]
  · simp [openModal, render, h, Content.dollarEl]

theorem C10_witness :
    render (initOptions {}) = .error JSErr.typeError ∧
    openModal { modal := { options := initOptions {} }, count := 0, backdropBaseZ := "1040" } = .error JSErr.typeError :=
  C10_absent_content_throws (initOptions {}) 0 "1040" (by decide)

/-- C3 counterexample: with the Bootstrap backdrop base z-index "1040", the
values `open` applies for the first three modals are 10400, 10401, 10402
(string concatenation of "1040" with the observed count, then CSS parsing):
both consecutive differences are 1, and a delta proportional to the modal
index k would require three times the first difference to equal twice the
second, which fails (3 is not 2). -/
theorem C3_counterexample :
    zVal "1040" 0 = 10400 ∧ zVal "1040" 1 = 10401 ∧ zVal "1040" 2 = 10402 ∧
    zVal "1040" 1 - zVal "1040" 0 = 1 ∧ zVal "1040" 2 - zVal "1040" 1 = 1 ∧
    ¬ 3 * (zVal "1040" 1 - zVal "1040" 0) = 2 * (zVal "1040" 2 - zVal "1040" 1) ∧
    zVal "1040" 9 = 10409 ∧ zVal "1040" 10 = 104010 := by decide

/-- C3 (amended): opening N modals sequentially increments the open-count
from 0 to N, and the k-th open (observing count k) styles the element and the
backdrop with the same z-index string: the backdrop's computed z-index
concatenated with the decimal representation of k (JavaScript string+number
coercion).  Its numeric value is `parse(base) * 10 ^ digits(k) + k`, which is
strictly increasing in k - each subsequent modal stacks above the previous -
but the consecutive difference is the constant 1 while the digit length of k
is unchanged (and jumps when it grows), not a delta proportional to k. -/
theorem C3_count_and_stacking (o : Options) (base : String) (N : Nat)
    (h : o.content ≠ Content.absent) :
    (∃ entries, openSeqCount o base N 0 = .ok ((N : Int), entries) ∧
      entries.length = N ∧
      ∀ k, k < N → ∃ acts, entries.get? k = some ((k : Int), acts) ∧
        Act.cssZIndex (zStr base k) (zStr base k) ∈ acts) ∧
    (∀ k, zVal base k = parseDecimal base * 10 ^ (natDecimalRepr k).length + k) ∧
    (∀ k, zVal base k < zVal base (k + 1)) := by
  refine ⟨?_, zVal_eq base, zVal_strictMono base⟩
  obtain ⟨entries, he, hlen, hidx⟩ := openSeqCount_ok o h base N 0
  refine ⟨entries, ?_, hlen, ?_⟩
  · rw [he]; norm_num
  · intro k hk
    obtain ⟨acts, hget, hmem⟩ := hidx k hk
    have hz : jsAddStringNum base ((0 : Int) + k) = zStr base k := by
      rw [zero_add, zStr, jsAddStringNum, jsIntToString_natCast]
    refine ⟨acts, ?_, ?_⟩
    · rw [hget]; norm_num
    · rwa [hz] at hmem

theorem C3_witness :
    (∃ entries, openSeqCount sampleTextOptions "1040" 3 0 = .ok ((3 : Int), entries) ∧
      entries.length = 3 ∧
      ∀ k, k < 3 → ∃ acts, entries.get? k = some ((k : Int), acts) ∧
        Act.cssZIndex (zStr "1040" k) (zStr "1040" k) ∈ acts) ∧
    (∀ k, zVal "1040" k = parseDecimal "1040" * 10 ^ (natDecimalRepr k).length + k) ∧
    (∀ k, zVal "1040" k < zVal "1040" (k + 1)) :=
  C3_count_and_stacking sampleTextOptions "1040" 3 (by decide)

/-- C4 counterexample: closing the opened default modal (string content, no
veto) and letting the widget's hide complete yields a trace in which the
element removal occurs and the Modal's `hidden` emission occurs, but the
emission does not precede the removal. -/
theorem C4_counterexample :
    Act.removeElement ∈ (closeAndComplete openedSampleWorld).2 ∧
    Act.emitModal "hidden" ∈ (closeAndComplete openedSampleWorld).2 ∧
    ¬ (closeAndComplete openedSampleWorld).2.indexOf (Act.emitModal "hidden") <
        (closeAndComplete openedSampleWorld).2.indexOf Act.removeElement := by decide

/-- C4 (amended): in every close() execution that is not vetoed, followed by
the widget's hide completion, the trace contains exactly one hide completion,
one element removal and one `hidden` emission, and the Modal's `hidden`
emission follows the hide completion and follows (rather than precedes) the
removal of the element: the handler removes the element first, then forwards
to the content view, then emits `hidden`. -/
theorem C4_hidden_after_removal (w : World) (h : w.modal.preventCloseFlag = false) :
    (closeAndComplete w).2.count Act.hideComplete = 1 ∧
    (closeAndComplete w).2.count Act.removeElement = 1 ∧
    (closeAndComplete w).2.count (Act.emitModal "hidden") = 1 ∧
    (closeAndComplete w).2.indexOf Act.hideComplete <
      (closeAndComplete w).2.indexOf Act.removeElement ∧
    (closeAndComplete w).2.indexOf Act.removeElement <
      (closeAndComplete w).2.indexOf (Act.emitModal "hidden") := by
  by_cases ha : w.modal.options.animate = AnimateOpt.hook <;>
    cases hct : w.modal.options.content.canTrigger <;>
      simp [closeAndComplete, closeModal, deliverHidden, h, ha, hct, List.count_cons,
        List.indexOf_cons]

theorem C4_witness :
    (closeAndComplete openedSampleWorld).2.count Act.hideComplete = 1 ∧
    (closeAndComplete openedSampleWorld).2.count Act.removeElement = 1 ∧
    (closeAndComplete openedSampleWorld).2.count (Act.emitModal "hidden") = 1 ∧
    (closeAndComplete openedSampleWorld).2.indexOf Act.hideComplete <
      (closeAndComplete openedSampleWorld).2.indexOf Act.removeElement ∧
    (closeAndComplete openedSampleWorld).2.indexOf Act.removeElement <
      (closeAndComplete openedSampleWorld).2.indexOf (Act.emitModal "hidden") :=
  C4_hidden_after_removal openedSampleWorld (by decide)

/-- C5: opening a modal with `allowCancel` (default) and a trigger-capable
content view, then delivering an Escape keyup (key code 27): the Modal emits
`cancel`, but the event forwarded to the content view is `shown` (source line
213), not `cancel` - the code contradicts the module's documented forwarding
of the `cancel` event to the content view. -/
theorem C5_escape_forwards_shown :
    Act.emitModal "cancel" ∈ (deliverKeyup 27 openedViewWorld).2 ∧
    Act.forwardContent "shown" true ∈ (deliverKeyup 27 openedViewWorld).2 ∧
    Act.forwardContent "cancel" true ∉ (deliverKeyup 27 openedViewWorld).2 := by decide

theorem closeModal_trace (w : World) (a : Act) (ha : a ∈ (closeModal w).2) :
    a = Act.widgetHide ∨ a = Act.animateHook "close" := by
  by_cases hp : w.modal.preventCloseFlag
  · simp [closeModal, hp] at ha
  · by_cases hk : w.modal.options.animate = AnimateOpt.hook <;>
      simp [closeModal, hp, hk] at ha <;> tauto

theorem emit_not_mem_closeModal (w : World) (e : String) :
    Act.emitModal e ∉ (closeModal w).2 := by
  intro hmem
  rcases closeModal_trace w _ hmem with h | h <;> simp at h

theorem emit_not_mem_runCloses (n : Nat) : ∀ w : World, ∀ e : String,
    Act.emitModal e ∉ (runCloses n w).2 := by
  induction n with
  | zero => intro w e hmem; simp [runCloses] at hmem
  | succ n ih =>
      intro w e hmem
      simp only [runCloses, List.mem_append] at hmem
      rcases hmem with h | h
      · exact emit_not_mem_closeModal w e h
      · exact ih _ e h

theorem widgetHide_not_mem_fwd (l : List Act) (e : String)
    (hl : l = [] ∨ l = [Act.forwardContent e true]) : Act.widgetHide ∉ l := by
  rcases hl with rfl | rfl <;> simp

/-- C6: with `allowCancel = false` (and content present so the open
succeeds), `open()` arms neither the Escape-keyup handler nor the
backdrop-click handler, the widget is configured with `keyboard := false`,
and delivering an Escape keyup or a backdrop click afterwards changes
nothing - no `cancel` emission, no action at all - while the element stays
in the document. -/
theorem C6_allowCancel_false (o : Options) (c : Int) (base : String)
    (hac : o.allowCancel = false) (h : o.content ≠ Content.absent) :
    ∃ w1 acts,
      openModal { modal := { options := o }, count := c, backdropBaseZ := base } =
        .ok (w1, acts) ∧
      w1.modal.escapeArmed = false ∧ w1.modal.backdropArmed = false ∧
      (∃ cfg, Act.widgetShow cfg ∈ acts ∧ cfg.keyboard = false) ∧
      deliverKeyup 27 w1 = (w1, []) ∧
      deliverBackdropClick w1 = (w1, []) ∧
      w1.modal.inDocument = true := by
  obtain ⟨m1, heq, hopts, hdoc, hpc, hcw, hesc, hbd, hha, hir, hsa, hwc⟩ :=
    openModal_fresh o h c base
  refine ⟨_, _, heq, ?_, ?_, ⟨widgetConfigOf o, by simp, ?_⟩, ?_, ?_, hdoc⟩
  · rw [hesc, hac]
  · rw [hbd, hac]
  · simp [widgetConfigOf, hac]
  · simp [deliverKeyup, hesc, hac]
  · simp [deliverBackdropClick, hbd, hac]

theorem C6_witness :
    ∃ w1 acts,
      openModal { modal := { options := initOptions { allowCancel := some false, content := some (Content.text "x") } }, count := 0, backdropBaseZ := "1040" } =
        .ok (w1, acts) ∧
      w1.modal.escapeArmed = false ∧ w1.modal.backdropArmed = false ∧
      (∃ cfg, Act.widgetShow cfg ∈ acts ∧ cfg.keyboard = false) ∧
      deliverKeyup 27 w1 = (w1, []) ∧
      deliverBackdropClick w1 = (w1, []) ∧
      w1.modal.inDocument = true :=
  C6_allowCancel_false (initOptions { allowCancel := some false, content := some (Content.text "x") })
    0 "1040" (by decide) (by decide)

/-- C7: clicking OK emits `ok` exactly once, forwards it to the content view
exactly when the content is trigger-capable, and then invokes `close()` iff
`okCloses`; the close icon and the Cancel button behave identically: they
emit `cancel` (never `ok`) and do not invoke `close()` themselves - with no
`cancel`-to-`close` wiring the state is untouched and no hide is commanded,
and with the single wiring registered by `open()` the resulting state is
exactly that of `close()`. -/
theorem C7_clicks (w : World) :
    (clickOk w).2.count (Act.emitModal "ok") = 1 ∧
    (Act.forwardContent "ok" true ∈ (clickOk w).2 ↔
      w.modal.options.content.canTrigger = true) ∧
    (w.modal.options.okCloses = true → (clickOk w).1 = (closeModal w).1) ∧
    (w.modal.options.okCloses = false →
      (clickOk w).1 = w ∧ Act.widgetHide ∉ (clickOk w).2) ∧
    clickCloseIcon w = clickCancel w ∧
    Act.emitModal "cancel" ∈ (clickCancel w).2 ∧
    Act.emitModal "ok" ∉ (clickCancel w).2 ∧
    (w.modal.cancelWired = 0 →
      (clickCancel w).1 = w ∧ Act.widgetHide ∉ (clickCancel w).2) ∧
    (w.modal.cancelWired = 1 → (clickCancel w).1 = (closeModal w).1) := by
  refine ⟨?_, ?_, ?_, ?_, rfl, ?_, ?_, ?_, ?_⟩
  · by_cases hok : w.modal.options.okCloses <;>
      cases hct : w.modal.options.content.canTrigger <;>
        simp [clickOk, hok, hct, List.count_append, List.count_cons,
          List.count_eq_zero.mpr (emit_not_mem_closeModal w "ok")]
  · have hno : Act.forwardContent "ok" true ∉ (closeModal w).2 := by
      intro hmem
      rcases closeModal_trace w _ hmem with h | h <;> simp at h
    by_cases hok : w.modal.options.okCloses <;>
      cases hct : w.modal.options.content.canTrigger <;>
        simp [clickOk, hok, hct, hno]
  · intro hok; simp [clickOk, hok]
  · intro hok
    cases hct : w.modal.options.content.canTrigger <;>
      simp [clickOk, hok, hct]
  · simp [clickCancel, triggerCancel]
  · intro hmem
    simp only [clickCancel, triggerCancel, List.mem_append, List.mem_cons] at hmem
    rcases hmem with (h | h) | h
    · simp at h
    · exact emit_not_mem_runCloses w.modal.cancelWired w "ok" h
    · cases hct : (triggerCancel w).1.modal.options.content.canTrigger <;>
        simp [hct] at h
  · intro h0
    constructor
    · simp [clickCancel, triggerCancel, runCloses, h0]
    · cases hct : (triggerCancel w).1.modal.options.content.canTrigger <;>
        simp [clickCancel, triggerCancel, runCloses, h0, hct]
  · intro h1
    simp [clickCancel, triggerCancel, runCloses, h1]

theorem C7_witness :
    (clickOk openedViewWorld).1 = (closeModal openedViewWorld).1 ∧
    (clickCancel openedViewWorld).1 = (closeModal openedViewWorld).1 ∧
    (clickOk openedViewWorld).2.count (Act.emitModal "ok") = 1 :=
  ⟨(C7_clicks openedViewWorld).2.2.1 (by decide),
   (C7_clicks openedViewWorld).2.2.2.2.2.2.2.2 (by decide),
   (C7_clicks openedViewWorld).1⟩

/-- C8: in the default template's output the header region appears exactly
when `title` is truthy, the close icon exactly when additionally
`allowCancel`, a falsey `cancelText` removes the Cancel button, and the
footer region is omitted exactly when `okText` and `cancelText` are both
strictly `false` (the `!==` comparisons of line 35). -/
theorem C8_template_regions (o : Options) :
    (template o).header = o.title.truthy ∧
    (template o).closeIcon = (o.title.truthy && o.allowCancel) ∧
    (o.cancelText.truthy = false → (template o).cancelButton = false) ∧
    ((template o).footer = false ↔
      (o.okText = JSVal.bool false ∧ o.cancelText = JSVal.bool false)) := by
  refine ⟨rfl, rfl, ?_, ?_⟩
  · intro hct
    simp [template, hct]
  · simp [template]

theorem C8_witness :
    (template (initOptions { cancelText := some (JSVal.bool false) })).cancelButton = false ∧
    (template (initOptions { cancelText := some (JSVal.bool false) })).footer = true :=
  ⟨(C8_template_regions (initOptions { cancelText := some (JSVal.bool false) })).2.2.1
      (by decide),
   by decide⟩

/-- The world with the modal's `escape` option replaced, used to state that
the option is never read after the constructor's merge. -/
def worldWithEscape (w : World) (b : Bool) : World :=
  { w with modal := { w.modal with options := { w.modal.options with escape := b } } }

/-- C9: `initialize` merges `escape` (default `true`) into the options, but
the option is never read afterwards: the keyboard-dismiss flag handed to the
Dialog Widget equals `allowCancel` whatever `escape` is, and `render`,
`open` and `close` behave identically for every value of `escape`. -/
theorem C9_escape_never_read (oin : OptionsIn) (o : Options) (b : Bool) (w : World) :
    (initOptions oin).escape = oin.escape.getD true ∧
    (widgetConfigOf o).keyboard = o.allowCancel ∧
    widgetConfigOf { o with escape := b } = widgetConfigOf o ∧
    render { o with escape := b } = render o ∧
    openModal (worldWithEscape w b) =
      Except.map (fun p => (worldWithEscape p.1 b, p.2)) (openModal w) ∧
    closeModal (worldWithEscape w b) =
      (worldWithEscape (closeModal w).1 b, (closeModal w).2) := by
  refine ⟨rfl, rfl, rfl, rfl, ?_, ?_⟩
  · cases hir : w.modal.isRendered <;> cases hc : w.modal.options.content <;>
      simp [openModal, render, template, Content.dollarEl, worldWithEscape, widgetConfigOf,
        backdropOption, jsAddStringNum, hir, hc, Except.map]
  · by_cases hp : w.modal.preventCloseFlag <;>
      simp [closeModal, worldWithEscape, hp]
